import Mathlib

/-!
Verification development for the chart layout/render engine of the `bottom`
terminal monitor (`src/app/widgets/custom_tui/custom_legend_chart.rs`, a fork
of the tui-rs `Chart` widget).

Machine integers (`u16`, `u32`) are embedded as `Nat`; wherever the Rust code
performs an `as u16` / `as u32` cast we take the value modulo `2^16` / `2^32`
explicitly.  Rust's saturating operations (`Rect::right`, `Rect::bottom`,
`saturating_sub`) become `min _ 65535` and truncated `Nat` subtraction.
Operations that can panic in the Rust code (division by zero) are embedded in
`Option`, with `none` standing for the panic.
-/

set_option autoImplicit false

namespace CustomLegendChart

/-- 2^16, the number of values of a `u16`. -/
def U16 : Nat := 65536

/-- 2^32, the number of values of a `u32`. -/
def U32 : Nat := 4294967296

/-- `tui::layout::Rect`: axis-aligned rectangle in character cells, all four
fields `u16` in the source. -/
structure Rect where
  x : Nat := 0
  y : Nat := 0
  width : Nat := 0
  height : Nat := 0
deriving DecidableEq, Repr

/-- `Rect::left`. -/
def Rect.left (r : Rect) : Nat := r.x

/-- `Rect::right`: `x.saturating_add(width)`. -/
def Rect.right (r : Rect) : Nat := min (r.x + r.width) 65535

/-- `Rect::top`. -/
def Rect.top (r : Rect) : Nat := r.y

/-- `Rect::bottom`: `y.saturating_add(height)`. -/
def Rect.bottom (r : Rect) : Nat := min (r.y + r.height) 65535

/-- `Rect::area`: `width * height` (exact product; the `u16` product in the
source is only compared against 0 under hypotheses keeping it below 2^16). -/
def Rect.area (r : Rect) : Nat := r.width * r.height

/-- `Rect::new`.  The source clips `width`/`height` (preserving aspect ratio,
with floating point) when `width * height > u16::MAX`; that branch is not
modelled, and every theorem whose inputs could reach it carries a hypothesis
keeping the product at most 65535 so the branch is never taken. -/
def Rect.new (x y width height : Nat) : Rect :=
  { x := x, y := y, width := width, height := height }

/-- `tui::style::Style`, reduced to the two fields the chart reads
(`fg`, `bg`); colors are opaque numerals, `0` standing for `Color::Reset`. -/
structure Style where
  fg : Option Nat := none
  bg : Option Nat := none
deriving DecidableEq, Repr

/-- A size constraint `Constraint::Ratio(num, den)` (both `u32`), the only
variant the chart constructs for `hidden_legend_constraints`. -/
structure Constraint where
  num : Nat
  den : Nat
deriving DecidableEq, Repr

/-- `Constraint::apply` for the `Ratio` variant:
`let r = num * u32::from(length) / den; r as u16`.
The multiplication is `u32` arithmetic (mod 2^32) and the result is truncated
to `u16`.  `den = 0` would panic in Rust; theorems quantifying over
constraints carry `0 < den`. -/
def Constraint.apply (c : Constraint) (length : Nat) : Nat :=
  (c.num % U32) * (length % U32) % U32 / (c.den % U32) % U16

/-- Axis description (the fork's `Axis` struct): optional labels, numeric
bounds, optional title, style.  A label (`Span`) enters layout and label
rendering only through its display width, so labels are embedded as their
display widths (`Nat`, the untruncated `usize` that `Span::width` returns);
likewise the title (`Spans`) is embedded as its display width. -/
structure Axis where
  labels : Option (List Nat) := none
  bounds : Rat × Rat := (0, 0)
  title : Option Nat := none
  style : Style := {}
deriving DecidableEq, Repr

/-- `GraphType` of a dataset. -/
inductive GraphType where
  | scatter
  | line
deriving DecidableEq, Repr

/-- Marker kind (`symbols::Marker`). -/
inductive Marker where
  | dot
  | braille
deriving DecidableEq, Repr

/-- The fork's `Dataset`: name (embedded as its display width), the point
data (`&[(f64, f64)]`, embedded as rationals: the raw values are only carried
into draw calls, never computed with, before the canvas), marker, graph type
and style. -/
structure Dataset where
  name_width : Nat := 0
  data : List (Rat × Rat) := []
  marker : Marker := Marker.braille
  graph_type : GraphType := GraphType.scatter
  style : Style := {}
deriving DecidableEq, Repr

/-- The fork's `ChartLayout` (derives `Default`: every option `None`,
`graph_area` the zero rectangle). -/
structure ChartLayout where
  title_x : Option (Nat × Nat) := none
  title_y : Option (Nat × Nat) := none
  label_x : Option Nat := none
  label_y : Option Nat := none
  axis_x : Option Nat := none
  axis_y : Option Nat := none
  legend_area : Option Rect := none
  graph_area : Rect := {}
deriving DecidableEq, Repr

/-- The `Chart` widget state.  The `block` field (an optional external
`tui::widgets::Block` wrapper) is not part of the embedding: every claim
takes `block = None`, in which case `render` uses the area unchanged. -/
structure Chart where
  x_axis : Axis := {}
  y_axis : Axis := {}
  datasets : List Dataset := []
  style : Style := {}
  hidden_legend_constraints : Constraint × Constraint :=
    ({ num := 1, den := 4 }, { num := 1, den := 4 })
deriving DecidableEq, Repr

/-- `Chart::max_width_of_labels_left_of_y_axis` (source lines 142-156):
the longest y-label width (`as u16`), widened by the first x-label's width
(`as u16`) when x labels exist and are non-empty, capped at one third of the
total width. -/
def Chart.max_width_of_labels_left_of_y_axis (c : Chart) (area : Rect) : Nat :=
  let base : Nat :=
    (match c.y_axis.labels with
     | some l => l.foldr Nat.max 0
     | none => 0) % U16
  let withFirstX : Nat :=
    match c.x_axis.labels with
    | some (w :: _) => Nat.max base (w % U16)
    | _ => base
  min withFirstX (area.width / 3)

/-- Cursor row before any reservation: `area.bottom() - 1` (layout line 78). -/
def layY0 (area : Rect) : Nat := area.bottom - 1

/-- Cursor row after the x-label row reservation (layout lines 80-83). -/
def layY1 (c : Chart) (area : Rect) : Nat :=
  if c.x_axis.labels.isSome ∧ area.top < layY0 area then layY0 area - 1
  else layY0 area

/-- Cursor column after the y-label column reservation (layout lines 85-86). -/
def layX1 (c : Chart) (area : Rect) : Nat :=
  area.left + c.max_width_of_labels_left_of_y_axis area

/-- Cursor row after the x tick-line reservation (layout lines 88-91). -/
def layY2 (c : Chart) (area : Rect) : Nat :=
  if c.x_axis.labels.isSome ∧ area.top < layY1 c area then layY1 c area - 1
  else layY1 c area

/-- Cursor column after the y tick-line reservation (layout lines 93-96). -/
def layX2 (c : Chart) (area : Rect) : Nat :=
  if c.y_axis.labels.isSome ∧ layX1 c area + 1 < area.right then layX1 c area + 1
  else layX1 c area

/-- The graph area (layout lines 98-100): assigned only when
`x < area.right() && y > 1`, otherwise it stays the zero rectangle. -/
def graphOf (c : Chart) (area : Rect) : Rect :=
  if layX2 c area < area.right ∧ 1 < layY2 c area then
    Rect.new (layX2 c area) area.top (area.right - layX2 c area)
      (layY2 c area - area.top + 1)
  else {}

/-- x-axis title placement (layout lines 102-107): shown iff the title width
(`as u16`) is strictly below the graph width and the graph height exceeds 2;
placed at `(x + graph.width - w, y)`. -/
def titleXOf (title : Option Nat) (x y : Nat) (graph : Rect) : Option (Nat × Nat) :=
  match title with
  | none => none
  | some w0 =>
    let w := w0 % U16
    if w < graph.width ∧ 2 < graph.height then some (x + graph.width - w, y)
    else none

/-- y-axis title placement (layout lines 109-114): shown iff the title width
(`as u16`) plus one is strictly below the graph width and the graph height
exceeds 2; placed at `(x, area.top())`. -/
def titleYOf (title : Option Nat) (x top : Nat) (graph : Rect) : Option (Nat × Nat) :=
  match title with
  | none => none
  | some w0 =>
    let w := w0 % U16
    if w + 1 < graph.width ∧ 2 < graph.height then some (x, top)
    else none

/-- `self.datasets.iter().map(|d| d.name.width() as u16).max()` (layout line
116): `none` on an empty dataset list, otherwise the maximum of the
`u16`-truncated name widths (for `Nat` the iterator maximum of a non-empty
list is its `foldr max 0`). -/
def maxNameWidth (ds : List Dataset) : Option Nat :=
  match ds with
  | [] => none
  | _ => some ((ds.map (fun d => d.name_width % U16)).foldr Nat.max 0)

/-- Legend placement (layout lines 116-138): width = max name width + 2,
height = dataset count (`as u16`) + 2, shown iff the max name width is
positive and width/height are strictly below the ratio constraints applied
to the graph dimensions; flush to the graph area's top-right corner. -/
def legendAreaOf (ds : List Dataset) (cons : Constraint × Constraint)
    (graph : Rect) : Option Rect :=
  match maxNameWidth ds with
  | none => none
  | some innerWidth =>
    let legendWidth := (innerWidth + 2) % U16
    let legendHeight := (ds.length % U16 + 2) % U16
    let maxLegendWidth := cons.1.apply graph.width
    let maxLegendHeight := cons.2.apply graph.height
    if 0 < innerWidth ∧ legendWidth < maxLegendWidth ∧ legendHeight < maxLegendHeight then
      some (Rect.new (graph.right - legendWidth) graph.top legendWidth legendHeight)
    else none

/-- `Chart::layout` (source lines 72-140), assembled from the step functions
above, which mirror the source's sequential cursor updates. -/
def Chart.layout (c : Chart) (area : Rect) : ChartLayout :=
  if area.height = 0 ∨ area.width = 0 then {}
  else
    { label_x :=
        if c.x_axis.labels.isSome ∧ area.top < layY0 area then some (layY0 area)
        else none
      label_y := if c.y_axis.labels.isSome then some area.left else none
      axis_x :=
        if c.x_axis.labels.isSome ∧ area.top < layY1 c area then some (layY1 c area)
        else none
      axis_y :=
        if c.y_axis.labels.isSome ∧ layX1 c area + 1 < area.right then some (layX1 c area)
        else none
      graph_area := graphOf c area
      title_x := titleXOf c.x_axis.title (layX2 c area) (layY2 c area) (graphOf c area)
      title_y := titleYOf c.y_axis.title (layX2 c area) area.top (graphOf c area)
      legend_area := legendAreaOf c.datasets c.hidden_legend_constraints (graphOf c area) }

/-- A shape handed to `Canvas::paint`'s context: `Points { coords, color }`
or a `Line { x1, y1, x2, y2, color }` segment.  The raw `f64` coordinates are
carried unevaluated (as the rationals they denote). -/
inductive Shape where
  | points (coords : List (Rat × Rat)) (color : Nat)
  | segment (x1 y1 x2 y2 : Rat) (color : Nat)
deriving DecidableEq, Repr

/-- `slice::windows(2)` as the list of consecutive pairs. -/
def pairsOf {α : Type} : List α → List (α × α)
  | a :: b :: rest => (a, b) :: pairsOf (b :: rest)
  | _ => []

/-- The draw calls issued by the paint closure for one dataset (render lines
270-286): always `Points` over the whole data slice, then, for `Line` graph
type, one segment per `windows(2)` pair. -/
def Dataset.paintShapes (d : Dataset) : List Shape :=
  Shape.points d.data (d.style.fg.getD 0) ::
    match d.graph_type with
    | GraphType.line =>
      (pairsOf d.data).map fun pq =>
        Shape.segment pq.1.1 pq.1.2 pq.2.1 pq.2.2 (d.style.fg.getD 0)
    | GraphType.scatter => []

/-- Axis-line glyphs. -/
inductive Sym where
  | horizontal
  | vertical
  | bottomLeft
deriving DecidableEq, Repr

/-- One write into the shared cell buffer.  `span x y w` records a clipped
string write (`Buffer::set_span` / `set_string` / `set_spans`) of width `w`
at `(x, y)`; `canvas` records one dataset's `Canvas` render with its marker,
background, axis bounds, draw calls and target area. -/
inductive Ev where
  | setStyle (r : Rect) (s : Style)
  | span (x y w : Nat)
  | symbol (x y : Nat) (s : Sym)
  | canvas (marker : Marker) (bg : Nat) (xb yb : Rat × Rat)
      (shapes : List Shape) (g : Rect)
  | legendBox (r : Rect)
deriving DecidableEq, Repr

/-- `Chart::render_x_labels` (source lines 158-190) as the list of buffer
writes it performs; `none` models a panic (u16 overflow/underflow in the
position arithmetic, unreachable for on-screen rectangles). -/
def Chart.render_x_labels (c : Chart) (layout : ChartLayout)
    (chart_area graph_area : Rect) : Option (List Ev) :=
  match layout.label_x with
  | none => some []
  | some y =>
    let labels := c.x_axis.labels.getD []
    let labelsLen := labels.length % U16
    if labelsLen < 2 then some []
    else
      let widthBetweenTicks := graph_area.width / (labelsLen - 1)
      (labels.enum.mapM fun iw =>
        let labelWidth :=
          if iw.1 = 0 then
            min (graph_area.left - chart_area.left) (iw.2 % U16)
          else
            min widthBetweenTicks (iw.2 % U16)
        let m := iw.1 % U16 * widthBetweenTicks
        if U16 ≤ m then none
        else
          let s := graph_area.left + m
          if U16 ≤ s then none
          else if s < labelWidth then none
          else some (Ev.span (s - labelWidth) y labelWidth))

/-- `Chart::render_y_labels` (source lines 192-208) as the list of buffer
writes it performs.  The per-label row is
`i as u16 * (graph_area.height - 1) / (labels_len - 1)`: with a non-empty
label list whose `u16` length is 0 or 1 the divisor computation underflows
or divides by zero, a Rust panic, modelled as `none`. -/
def Chart.render_y_labels (c : Chart) (layout : ChartLayout)
    (chart_area graph_area : Rect) : Option (List Ev) :=
  match layout.label_y with
  | none => some []
  | some x =>
    let labels := c.y_axis.labels.getD []
    let labelsLen := labels.length % U16
    let labelWidth := graph_area.left - chart_area.left
    if labels.isEmpty then some []
    else if labelsLen ≤ 1 then none
    else
      (labels.enum.mapM fun iw =>
        let m := iw.1 % U16 * (graph_area.height - 1)
        if U16 ≤ m then none
        else
          let dy := m / (labelsLen - 1)
          some (if dy < graph_area.bottom then
              [Ev.span x (graph_area.bottom - 1 - dy) labelWidth]
            else [])).map List.flatten

/-- The horizontal x tick line, the vertical y tick line and the corner glyph
(render lines 240-262). -/
def axisLineEvs (layout : ChartLayout) (graph_area : Rect) : List Ev :=
  (match layout.axis_x with
   | some y =>
     (List.range' graph_area.left (graph_area.right - graph_area.left)).map
       fun x => Ev.symbol x y Sym.horizontal
   | none => []) ++
  (match layout.axis_y with
   | some x =>
     (List.range' graph_area.top (graph_area.bottom - graph_area.top)).map
       fun y => Ev.symbol x y Sym.vertical
   | none => []) ++
  (match layout.axis_x, layout.axis_y with
   | some y, some x => [Ev.symbol x y Sym.bottomLeft]
   | _, _ => [])

/-- The per-dataset `Canvas` renders (render lines 264-288). -/
def datasetEvs (c : Chart) (graph_area : Rect) : List Ev :=
  c.datasets.map fun d =>
    Ev.canvas d.marker (c.style.bg.getD 0) c.x_axis.bounds c.y_axis.bounds
      d.paintShapes graph_area

/-- The legend writes (render lines 290-303): restore the sampled original
style, draw the bordered box, then one name row per dataset. -/
def legendEvs (c : Chart) (orig : Style) (layout : ChartLayout) : List Ev :=
  match layout.legend_area with
  | none => []
  | some la =>
    Ev.setStyle la orig :: Ev.legendBox la ::
      c.datasets.enum.map fun id =>
        Ev.span (la.x + 1) (la.y + 1 + id.1 % U16) (id.2.name_width % U16)

/-- The title writes (render lines 305-333). -/
def titleEvs (orig : Style) (layout : ChartLayout) (graph_area : Rect) : List Ev :=
  (match layout.title_x with
   | some xy =>
     let w := graph_area.right - xy.1
     [Ev.setStyle { x := xy.1, y := xy.2, width := w, height := 1 } orig,
      Ev.span xy.1 xy.2 w]
   | none => []) ++
  (match layout.title_y with
   | some xy =>
     let w := graph_area.right - xy.1
     [Ev.setStyle { x := xy.1, y := xy.2, width := w, height := 1 } orig,
      Ev.span xy.1 xy.2 w]
   | none => [])

/-- `Chart::render` (source lines 212-334) with `block = None`, as the
sequence of buffer writes of one render pass; `none` models a panic inside
the pass.  `orig` is the style sampled from the buffer's top-left cell after
the initial fill (buffer contents are not otherwise modelled). -/
def Chart.render (c : Chart) (area : Rect) (orig : Style) : Option (List Ev) :=
  if area.area = 0 then some []
  else
    let fill := Ev.setStyle area c.style
    let layout := c.layout area
    let graph_area := layout.graph_area
    if graph_area.width < 1 ∨ graph_area.height < 1 then some [fill]
    else
      match c.render_x_labels layout area graph_area,
          c.render_y_labels layout area graph_area with
      | some xl, some yl =>
        some (fill :: xl ++ yl ++ axisLineEvs layout graph_area ++
          datasetEvs c graph_area ++ legendEvs c orig layout ++
          titleEvs orig layout graph_area)
      | _, _ => none

/-- Modelled from the spec (§4.2): the canvas painter's affine mapping from
data space onto the sub-cell grid of the plot area (tui's
`Painter::get_point`, floating point in the original, here over `Rat`).
Values outside the axis bounds are clipped: no mark is produced.  `rx`/`ry`
are the sub-cell resolutions spanned by the plot rectangle. -/
def specGetPoint (xb yb : Rat × Rat) (rx ry : Nat) (p : Rat × Rat) :
    Option (Nat × Nat) :=
  if p.1 < xb.1 ∨ xb.2 < p.1 ∨ p.2 < yb.1 ∨ yb.2 < p.2 then none
  else
    some ((⌊(p.1 - xb.1) / (xb.2 - xb.1) * rx⌋).toNat,
      (⌊(p.2 - yb.1) / (yb.2 - yb.1) * ry⌋).toNat)

/-- Modelled from the spec (§4.2): the marks a `Points` draw call produces:
one mark per coordinate that maps inside the bounds. -/
def specMarksOfPoints (xb yb : Rat × Rat) (rx ry : Nat)
    (coords : List (Rat × Rat)) : List (Nat × Nat) :=
  coords.filterMap (specGetPoint xb yb rx ry)

/-- Scenario-A chart (spec §8): x labels `["0","50","100"]` (widths 1,2,3),
y labels `["0%","100%"]` (widths 2,4), no titles, no datasets. -/
def chartA : Chart :=
  { x_axis := { labels := some [1, 2, 3] }
    y_axis := { labels := some [2, 4] } }

/-- One-y-label chart: the input on which `render_y_labels` divides by zero. -/
def chartOneYLabel : Chart := { y_axis := { labels := some [1] } }

/-- Chart with no labels, titles or datasets. -/
def chartPlain : Chart := {}

/-- Chart whose y-axis title has display width 9 (e.g. a 9-character title),
nothing else. -/
def chartC6 : Chart := { y_axis := { title := some 9 } }

/-- Chart with x-axis title of width 3 and y-axis title of width 2. -/
def chartC6w : Chart :=
  { x_axis := { title := some 3 }, y_axis := { title := some 2 } }

/-- Single-point dataset used to witness C8. -/
def datasetC8 : Dataset :=
  { name_width := 2, data := [((1 : Rat) / 2, (3 : Rat) / 4)], marker := Marker.dot }

/-- Helper: a bound on every element bounds the `foldr max 0`. -/
lemma foldr_max_lt (l : List Nat) (b : Nat) (hb : 0 < b)
    (h : ∀ w ∈ l, w < b) : l.foldr Nat.max 0 < b := by
  induction l with
  | nil => simpa using hb
  | cons a t ih =>
    simp only [List.foldr_cons]
    exact Nat.max_lt.mpr
      ⟨h a (List.mem_cons_self a t), ih (fun w hw => h w (List.mem_cons_of_mem a hw))⟩

/-- Helper: with the rectangle on the screen (`y + height ≤ 65535`) and a
positive height, the cursor row never climbs above the rectangle's top. -/
lemma top_le_layY2 (c : Chart) (area : Rect)
    (h1 : area.y + area.height ≤ 65535) (h2 : 0 < area.height) :
    area.top ≤ layY2 c area := by
  have hy0 : area.top ≤ layY0 area := by
    unfold layY0 Rect.bottom Rect.top
    omega
  have hy1 : area.top ≤ layY1 c area := by
    unfold layY1
    split
    · omega
    · exact hy0
  unfold layY2
  split
  · omega
  · exact hy1

/-- Helper: a non-zero graph area means the guard at layout line 98 passed,
and pins down the graph rectangle's fields. -/
lemma graphOf_of_ne_zero (c : Chart) (area : Rect)
    (h : graphOf c area ≠ ({} : Rect)) :
    layX2 c area < area.right ∧ 1 < layY2 c area
    ∧ graphOf c area
        = Rect.new (layX2 c area) area.top (area.right - layX2 c area)
            (layY2 c area - area.top + 1) := by
  unfold graphOf at *
  by_cases hc : layX2 c area < area.right ∧ 1 < layY2 c area
  · exact ⟨hc.1, hc.2, if_pos hc⟩
  · exact absurd (if_neg hc) h

/-- C2: for every bounding rectangle with width 0 or height 0, layout returns
an entirely absent `ChartLayout`: every optional element is `none` and the
graph area is zero-sized. -/
theorem c2_empty_area_layout (c : Chart) (area : Rect)
    (h : area.width = 0 ∨ area.height = 0) :
    (c.layout area).label_x = none ∧ (c.layout area).label_y = none
    ∧ (c.layout area).axis_x = none ∧ (c.layout area).axis_y = none
    ∧ (c.layout area).title_x = none ∧ (c.layout area).title_y = none
    ∧ (c.layout area).legend_area = none
    ∧ (c.layout area).graph_area.width = 0
    ∧ (c.layout area).graph_area.height = 0 := by
  have h0 : c.layout area = {} := by
    unfold Chart.layout
    rcases h with h | h <;> simp [h]
  rw [h0]
  exact ⟨rfl, rfl, rfl, rfl, rfl, rfl, rfl, rfl, rfl⟩

/-- C2 witness: the empty-width rectangle `{x:3, y:4, w:0, h:7}`. -/
theorem c2_empty_area_layout_witness :
    (chartA.layout { x := 3, y := 4, width := 0, height := 7 }).label_x = none
    ∧ (chartA.layout { x := 3, y := 4, width := 0, height := 7 }).label_y = none
    ∧ (chartA.layout { x := 3, y := 4, width := 0, height := 7 }).axis_x = none
    ∧ (chartA.layout { x := 3, y := 4, width := 0, height := 7 }).axis_y = none
    ∧ (chartA.layout { x := 3, y := 4, width := 0, height := 7 }).title_x = none
    ∧ (chartA.layout { x := 3, y := 4, width := 0, height := 7 }).title_y = none
    ∧ (chartA.layout { x := 3, y := 4, width := 0, height := 7 }).legend_area = none
    ∧ (chartA.layout { x := 3, y := 4, width := 0, height := 7 }).graph_area.width = 0
    ∧ (chartA.layout { x := 3, y := 4, width := 0, height := 7 }).graph_area.height = 0 :=
  c2_empty_area_layout chartA _ (Or.inl rfl)

/-- C9: scenario A — bounds `{x:0, y:0, w:40, h:10}`, x labels
`["0","50","100"]`, y labels `["0%","100%"]`, no titles, no datasets: the
graph area has height `10 - 2` (one row for x labels, one for the x tick
line) and width `40 - (4 + 1)` where 4 is the y-label reservation width and
1 the y tick column. -/
theorem c9_scenario_a_layout :
    (chartA.layout { x := 0, y := 0, width := 40, height := 10 }).graph_area
        = { x := 5, y := 0, width := 35, height := 8 }
    ∧ (chartA.layout { x := 0, y := 0, width := 40, height := 10 }).graph_area.height
        = 10 - 2
    ∧ chartA.max_width_of_labels_left_of_y_axis
        { x := 0, y := 0, width := 40, height := 10 } = 4
    ∧ (chartA.layout { x := 0, y := 0, width := 40, height := 10 }).graph_area.width
        = 40 - (4 + 1) := by decide

/-- C10: the graph area's emptiness depends on the rectangle's absolute
screen position: a graph area is only assigned when the cursor's absolute
row exceeds 1, so the height-2 label-free rectangle at the origin gets an
empty graph area while the same-sized rectangle at row 5 gets a full one. -/
theorem c10_graph_area_depends_on_absolute_y :
    (∀ (c : Chart) (area : Rect),
      (c.layout area).graph_area ≠ ({} : Rect) → 1 < layY2 c area)
    ∧ (chartPlain.layout { x := 0, y := 0, width := 5, height := 2 }).graph_area
        = ({} : Rect)
    ∧ (chartPlain.layout { x := 0, y := 5, width := 5, height := 2 }).graph_area
        = { x := 0, y := 5, width := 5, height := 2 } := by
  refine ⟨?_, by decide, by decide⟩
  intro c area h
  by_cases he : area.height = 0 ∨ area.width = 0
  · exact absurd (by unfold Chart.layout; rw [if_pos he]) h
  · unfold Chart.layout at h
    rw [if_neg he] at h
    exact (graphOf_of_ne_zero c area h).2.1

/-- C10 witness: the rectangle at row 5 satisfies the cursor-row condition. -/
theorem c10_graph_area_depends_on_absolute_y_witness :
    1 < layY2 chartPlain { x := 0, y := 5, width := 5, height := 2 } :=
  c10_graph_area_depends_on_absolute_y.1 chartPlain _ (by decide)

/-- C1: the render pass is not panic-free: with exactly one y-axis label the
per-label row computation in `render_y_labels` divides by
`labels_len - 1 = 0`, a Rust division-by-zero panic (modelled as `none`). -/
theorem c1_one_y_label_divides_by_zero :
    (chartOneYLabel.y_axis.labels.getD []).length = 1
    ∧ chartOneYLabel.render { x := 0, y := 0, width := 10, height := 10 } {} = none := by
  decide

/-- C4 counterexample: bounds `{x:0, y:0, w:40, h:2}` with the scenario-A
labels: layout reserves the x-label row (`label_x = some 1`, three labels)
but the graph area is empty, and the render pass then returns right after
the base style fill — the x-axis labels are NOT drawn. -/
theorem c4_cex_x_labels_dropped_when_graph_empty :
    (chartA.layout { x := 0, y := 0, width := 40, height := 2 }).label_x = some 1
    ∧ 2 ≤ (chartA.x_axis.labels.getD []).length
    ∧ (chartA.layout { x := 0, y := 0, width := 40, height := 2 }).graph_area = ({} : Rect)
    ∧ chartA.render { x := 0, y := 0, width := 40, height := 2 } {}
        = some [Ev.setStyle { x := 0, y := 0, width := 40, height := 2 } chartA.style] := by
  decide

/-- C4 (amended): when the graph area comes out empty the render pass stops
after the base style fill and draws nothing else — in particular reserved
x-axis labels are not drawn; only for a non-empty graph area are the
remaining elements individually guarded. -/
theorem c4_amended_render_early_return (c : Chart) (area : Rect) (orig : Style)
    (h0 : area.area ≠ 0)
    (hg : (c.layout area).graph_area.width < 1 ∨ (c.layout area).graph_area.height < 1) :
    c.render area orig = some [Ev.setStyle area c.style] := by
  unfold Chart.render
  rw [if_neg h0]
  simp only []
  rw [if_pos hg]

/-- C4 witness: the concrete 40×2 rectangle. -/
theorem c4_amended_render_early_return_witness :
    chartA.render { x := 0, y := 0, width := 40, height := 2 } {}
      = some [Ev.setStyle { x := 0, y := 0, width := 40, height := 2 } chartA.style] :=
  c4_amended_render_early_return chartA _ {} (by decide) (by decide)

/-- Helper: the `base` computation of the left-reservation width equals the
untruncated maximum y-label width when every label width fits a `u16`. -/
lemma base_y_label_eq (c : Chart) (hy : ∀ w ∈ c.y_axis.labels.getD [], w < U16) :
    (match c.y_axis.labels with
     | some l => l.foldr Nat.max 0
     | none => 0) % U16 = (c.y_axis.labels.getD []).foldr Nat.max 0 := by
  cases hyl : c.y_axis.labels with
  | none => simp
  | some l =>
    rw [hyl] at hy
    simp only [Option.getD_some] at hy ⊢
    exact Nat.mod_eq_of_lt (foldr_max_lt l U16 (by decide) hy)

/-- C5: for every non-empty bounding rectangle, the width reserved on the
left for y-axis labels equals
`min(area.width / 3, max(longest y-label width, first x-label width))`, a
missing label list or empty x-label list contributing 0, so the reservation
never exceeds one third of the total width. -/
theorem c5_y_label_reservation_width (c : Chart) (area : Rect)
    (hne : 0 < area.width ∧ 0 < area.height)
    (hy : ∀ w ∈ c.y_axis.labels.getD [], w < U16)
    (hx : ∀ w ∈ c.x_axis.labels.getD [], w < U16) :
    c.max_width_of_labels_left_of_y_axis area
      = min (area.width / 3)
          (Nat.max ((c.y_axis.labels.getD []).foldr Nat.max 0)
            ((c.x_axis.labels.getD []).headD 0))
    ∧ c.max_width_of_labels_left_of_y_axis area ≤ area.width / 3 := by
  have hb := base_y_label_eq c hy
  constructor
  · unfold Chart.max_width_of_labels_left_of_y_axis
    rw [Nat.min_comm]
    congr 1
    cases hxl : c.x_axis.labels with
    | none => simpa using hb
    | some xl =>
      cases xl with
      | nil => simpa using hb
      | cons w t =>
        have hw : w < U16 := by
          rw [hxl] at hx
          exact hx w (by simp)
        simp only [Option.getD_some, List.headD_cons]
        rw [hb, Nat.mod_eq_of_lt hw]
  · unfold Chart.max_width_of_labels_left_of_y_axis
    exact Nat.min_le_right _ _

/-- C5 witness: scenario-A chart at the 40×10 rectangle, reservation 4. -/
theorem c5_y_label_reservation_width_witness :
    chartA.max_width_of_labels_left_of_y_axis { x := 0, y := 0, width := 40, height := 10 }
      = min (40 / 3)
          (Nat.max ((chartA.y_axis.labels.getD []).foldr Nat.max 0)
            ((chartA.x_axis.labels.getD []).headD 0))
    ∧ chartA.max_width_of_labels_left_of_y_axis { x := 0, y := 0, width := 40, height := 10 }
        ≤ 40 / 3 :=
  c5_y_label_reservation_width chartA _ (by decide) (by decide) (by decide)

/-- C6 counterexample: at the 10×10 rectangle the graph area is 10×10, the
y-title width 9 is strictly below the graph width and the height exceeds 2,
yet the code leaves `title_y` absent — its test is `w + 1 < width`, not the
claimed `w < width`. -/
theorem c6_cex_y_title_off_by_one :
    chartC6.y_axis.title = some 9
    ∧ 9 < (chartC6.layout { x := 0, y := 0, width := 10, height := 10 }).graph_area.width
    ∧ 2 < (chartC6.layout { x := 0, y := 0, width := 10, height := 10 }).graph_area.height
    ∧ (chartC6.layout { x := 0, y := 0, width := 10, height := 10 }).title_y = none := by
  decide

/-- C6 (amended): for every layout with a present graph area, the x-axis
title is placed iff its displayed width is strictly below the graph width
and the graph height exceeds 2, at the graph area's right edge on its bottom
row; the y-axis title is placed at the graph area's top-left corner iff its
displayed width PLUS ONE is strictly below the graph width and the graph
height exceeds 2. -/
theorem c6_amended_title_placement (c : Chart) (area : Rect)
    (hcy : area.y + area.height ≤ 65535)
    (hg : (c.layout area).graph_area ≠ ({} : Rect)) :
    ((c.layout area).title_x.isSome ↔
      ∃ w, c.x_axis.title = some w
        ∧ w % U16 < (c.layout area).graph_area.width
        ∧ 2 < (c.layout area).graph_area.height)
    ∧ (∀ p, (c.layout area).title_x = some p →
        ∃ w, c.x_axis.title = some w
          ∧ p = ((c.layout area).graph_area.x + (c.layout area).graph_area.width - w % U16,
              (c.layout area).graph_area.y + (c.layout area).graph_area.height - 1))
    ∧ ((c.layout area).title_y.isSome ↔
      ∃ w, c.y_axis.title = some w
        ∧ w % U16 + 1 < (c.layout area).graph_area.width
        ∧ 2 < (c.layout area).graph_area.height)
    ∧ (∀ p, (c.layout area).title_y = some p →
        p = ((c.layout area).graph_area.x, (c.layout area).graph_area.y)) := by
  by_cases he : area.height = 0 ∨ area.width = 0
  · exact absurd (by unfold Chart.layout; rw [if_pos he]) hg
  · have hga : (c.layout area).graph_area = graphOf c area := by
      unfold Chart.layout; rw [if_neg he]
    have htx : (c.layout area).title_x
        = titleXOf c.x_axis.title (layX2 c area) (layY2 c area) (graphOf c area) := by
      unfold Chart.layout; rw [if_neg he]
    have hty : (c.layout area).title_y
        = titleYOf c.y_axis.title (layX2 c area) area.top (graphOf c area) := by
      unfold Chart.layout; rw [if_neg he]
    rw [hga] at hg
    obtain ⟨hxr, hy2, hgeq⟩ := graphOf_of_ne_zero c area hg
    have hgx : (graphOf c area).x = layX2 c area := by rw [hgeq]; rfl
    have hgy : (graphOf c area).y = area.top := by rw [hgeq]; rfl
    have hgh : (graphOf c area).height = layY2 c area - area.top + 1 := by rw [hgeq]; rfl
    have htop : area.top ≤ layY2 c area :=
      top_le_layY2 c area hcy (by omega)
    rw [hga, htx, hty]
    refine ⟨?_, ?_, ?_, ?_⟩
    · cases hti : c.x_axis.title with
      | none => simp [titleXOf]
      | some w0 =>
        simp only [titleXOf]
        split_ifs with hcond
        · simp only [Option.isSome_some, true_iff]
          exact ⟨w0, rfl, hcond⟩
        · simp only [Option.isSome_none]
          constructor
          · intro h
            simp at h
          · rintro ⟨w, hw, hw1, hw2⟩
            injection hw with hw
            subst hw
            exact absurd ⟨hw1, hw2⟩ hcond
    · intro p hp
      cases hti : c.x_axis.title with
      | none => rw [hti] at hp; simp [titleXOf] at hp
      | some w0 =>
        rw [hti] at hp
        simp only [titleXOf] at hp
        split_ifs at hp with hcond
        refine ⟨w0, rfl, ?_⟩
        cases hp
        rw [hgx, hgy, hgh]
        have : layY2 c area = area.top + (layY2 c area - area.top + 1) - 1 := by omega
        exact Prod.ext rfl this
    · cases hti : c.y_axis.title with
      | none => simp [titleYOf]
      | some w0 =>
        simp only [titleYOf]
        split_ifs with hcond
        · simp only [Option.isSome_some, true_iff]
          exact ⟨w0, rfl, hcond⟩
        · simp only [Option.isSome_none]
          constructor
          · intro h
            simp at h
          · rintro ⟨w, hw, hw1, hw2⟩
            injection hw with hw
            subst hw
            exact absurd ⟨hw1, hw2⟩ hcond
    · intro p hp
      cases hti : c.y_axis.title with
      | none => rw [hti] at hp; simp [titleYOf] at hp
      | some w0 =>
        rw [hti] at hp
        simp only [titleYOf] at hp
        split_ifs at hp with hcond
        cases hp
        rw [hgx, hgy]

/-- C6 witness: both titles at the 10×10 rectangle. -/
theorem c6_amended_title_placement_witness :
    ((chartC6w.layout { x := 0, y := 0, width := 10, height := 10 }).title_x.isSome ↔
      ∃ w, chartC6w.x_axis.title = some w
        ∧ w % U16
            < (chartC6w.layout { x := 0, y := 0, width := 10, height := 10 }).graph_area.width
        ∧ 2 < (chartC6w.layout { x := 0, y := 0, width := 10, height := 10 }).graph_area.height)
    ∧ (∀ p, (chartC6w.layout { x := 0, y := 0, width := 10, height := 10 }).title_x = some p →
        ∃ w, chartC6w.x_axis.title = some w
          ∧ p = ((chartC6w.layout { x := 0, y := 0, width := 10, height := 10 }).graph_area.x
                + (chartC6w.layout { x := 0, y := 0, width := 10, height := 10 }).graph_area.width
                - w % U16,
              (chartC6w.layout { x := 0, y := 0, width := 10, height := 10 }).graph_area.y
                + (chartC6w.layout { x := 0, y := 0, width := 10, height := 10 }).graph_area.height
                - 1))
    ∧ ((chartC6w.layout { x := 0, y := 0, width := 10, height := 10 }).title_y.isSome ↔
      ∃ w, chartC6w.y_axis.title = some w
        ∧ w % U16 + 1
            < (chartC6w.layout { x := 0, y := 0, width := 10, height := 10 }).graph_area.width
        ∧ 2 < (chartC6w.layout { x := 0, y := 0, width := 10, height := 10 }).graph_area.height)
    ∧ (∀ p, (chartC6w.layout { x := 0, y := 0, width := 10, height := 10 }).title_y = some p →
        p = ((chartC6w.layout { x := 0, y := 0, width := 10, height := 10 }).graph_area.x,
          (chartC6w.layout { x := 0, y := 0, width := 10, height := 10 }).graph_area.y)) :=
  c6_amended_title_placement chartC6w _ (by decide) (by decide)

/-- Helper: with a proper fraction (`num ≤ den`), `num` at most 2^16 and an
on-screen length, `Constraint::apply` is exact `Nat` arithmetic: no `u32`
product wrap and no `u16` truncation. -/
lemma Constraint.apply_eq (c : Constraint) (len : Nat) (hnd : c.num ≤ c.den)
    (hnb : c.num ≤ 65536) (hdb : c.den < U32) (hlen : len ≤ 65535) :
    c.apply len = c.num * len / c.den := by
  unfold Constraint.apply
  have h1 : c.num % U32 = c.num := Nat.mod_eq_of_lt (lt_of_le_of_lt hnb (by decide))
  have h2 : len % U32 = len := Nat.mod_eq_of_lt (lt_of_le_of_lt hlen (by decide))
  have h3 : c.num * len % U32 = c.num * len := by
    apply Nat.mod_eq_of_lt
    calc c.num * len ≤ 65536 * 65535 := Nat.mul_le_mul hnb hlen
      _ < U32 := by decide
  have h4 : c.den % U32 = c.den := Nat.mod_eq_of_lt hdb
  rw [h1, h2, h3, h4]
  apply Nat.mod_eq_of_lt
  have hle : c.num * len / c.den ≤ len := by
    rcases Nat.eq_zero_or_pos c.den with hd | hd
    · have hz : c.num = 0 := by omega
      simp [hz]
    · calc c.num * len / c.den ≤ c.den * len / c.den :=
          Nat.div_le_div_right (Nat.mul_le_mul_right len hnd)
        _ = len := Nat.mul_div_cancel_left len hd
  have : U16 = 65536 := rfl
  omega

/-- Helper: under the same side conditions `Constraint::apply` is monotone
in the length. -/
lemma Constraint.apply_mono (c : Constraint) (len len' : Nat) (h : len ≤ len')
    (hnd : c.num ≤ c.den) (hnb : c.num ≤ 65536) (hdb : c.den < U32)
    (hlen' : len' ≤ 65535) : c.apply len ≤ c.apply len' := by
  rw [Constraint.apply_eq c len hnd hnb hdb (le_trans h hlen'),
    Constraint.apply_eq c len' hnd hnb hdb hlen']
  exact Nat.div_le_div_right (Nat.mul_le_mul_left c.num h)

/-- C7: legend visibility is monotone in the plot size — for fixed datasets
and fixed proper-ratio constraints, if the legend is shown for some graph
area it is also shown for any graph area of greater-or-equal width and
height. -/
theorem c7_legend_visibility_monotone (ds : List Dataset) (k1 k2 : Constraint)
    (g g' : Rect)
    (hw : g.width ≤ g'.width) (hh : g.height ≤ g'.height)
    (hw' : g'.width ≤ 65535) (hh' : g'.height ≤ 65535)
    (h1nd : k1.num ≤ k1.den) (h2nd : k2.num ≤ k2.den)
    (h1nb : k1.num ≤ 65536) (h2nb : k2.num ≤ 65536)
    (h1db : k1.den < U32) (h2db : k2.den < U32)
    (h1z : 0 < k1.den) (h2z : 0 < k2.den)
    (hs : (legendAreaOf ds (k1, k2) g).isSome = true) :
    (legendAreaOf ds (k1, k2) g').isSome = true := by
  unfold legendAreaOf at hs ⊢
  cases hmw : maxNameWidth ds with
  | none => rw [hmw] at hs; simp at hs
  | some M =>
    rw [hmw] at hs
    dsimp only at hs ⊢
    split_ifs at hs with hC
    · obtain ⟨hM, hW, hH⟩ := hC
      have hC' : 0 < M ∧ (M + 2) % U16 < k1.apply g'.width
          ∧ (ds.length % U16 + 2) % U16 < k2.apply g'.height :=
        ⟨hM, lt_of_lt_of_le hW (Constraint.apply_mono k1 _ _ hw h1nd h1nb h1db hw'),
          lt_of_lt_of_le hH (Constraint.apply_mono k2 _ _ hh h2nd h2nb h2db hh')⟩
      rw [if_pos hC']
      rfl
    · simp at hs

/-- C7 witness: one name of width 3 with (1/1, 1/1) constraints, shown at
10×10 hence shown at 12×11. -/
theorem c7_legend_visibility_monotone_witness :
    (legendAreaOf [{ name_width := 3 }] ({ num := 1, den := 1 }, { num := 1, den := 1 })
      { x := 0, y := 0, width := 12, height := 11 }).isSome = true :=
  c7_legend_visibility_monotone [{ name_width := 3 }] _ _
    { x := 0, y := 0, width := 10, height := 10 } _
    (by decide) (by decide) (by decide) (by decide) (by decide) (by decide)
    (by decide) (by decide) (by decide) (by decide) (by decide) (by decide)
    (by decide)

/-- C8: a dataset holding exactly one point renders identically as `Line`
and as `Scatter`: the whole render pass issues the same buffer writes (the
`windows(2)` loop over one point draws no segment, so both paint exactly the
`Points` call over that single point), and — with the canvas mapping
modelled from the spec — that call produces exactly one mark, at the affine
image of the point, when it lies within the axis bounds. -/
theorem c8_single_point_line_eq_scatter (c : Chart) (area : Rect) (orig : Style)
    (d : Dataset) (p : Rat × Rat) (hd : d.data = [p])
    (xb yb : Rat × Rat) (rx ry : Nat) :
    Chart.render { c with datasets := [{ d with graph_type := GraphType.line }] } area orig
      = Chart.render { c with datasets := [{ d with graph_type := GraphType.scatter }] } area orig
    ∧ Dataset.paintShapes { d with graph_type := GraphType.line }
        = [Shape.points [p] (d.style.fg.getD 0)]
    ∧ Dataset.paintShapes { d with graph_type := GraphType.scatter }
        = [Shape.points [p] (d.style.fg.getD 0)]
    ∧ specMarksOfPoints xb yb rx ry [p] = (specGetPoint xb yb rx ry p).toList := by
  obtain ⟨nw, dat, mk, gt, st⟩ := d
  simp only at hd
  subst hd
  refine ⟨rfl, rfl, rfl, ?_⟩
  unfold specMarksOfPoints
  cases h : specGetPoint xb yb rx ry p <;>
    simp [List.filterMap, h]

/-- C8 witness: the single point `(1/2, 3/4)` on the unit-bounds canvas. -/
theorem c8_single_point_line_eq_scatter_witness :
    Chart.render { chartPlain with datasets := [{ datasetC8 with graph_type := GraphType.line }] }
        { x := 0, y := 0, width := 12, height := 8 } {}
      = Chart.render
          { chartPlain with datasets := [{ datasetC8 with graph_type := GraphType.scatter }] }
          { x := 0, y := 0, width := 12, height := 8 } {}
    ∧ Dataset.paintShapes { datasetC8 with graph_type := GraphType.line }
        = [Shape.points [((1 : Rat) / 2, (3 : Rat) / 4)] (datasetC8.style.fg.getD 0)]
    ∧ Dataset.paintShapes { datasetC8 with graph_type := GraphType.scatter }
        = [Shape.points [((1 : Rat) / 2, (3 : Rat) / 4)] (datasetC8.style.fg.getD 0)]
    ∧ specMarksOfPoints (0, 1) (0, 1) 2 4 [((1 : Rat) / 2, (3 : Rat) / 4)]
        = (specGetPoint (0, 1) (0, 1) 2 4 ((1 : Rat) / 2, (3 : Rat) / 4)).toList :=
  c8_single_point_line_eq_scatter chartPlain _ {} datasetC8 _ rfl (0, 1) (0, 1) 2 4

end CustomLegendChart
